import Mathlib

/-!
Shallow embedding of the Fantasy-Football data-ingestion pipeline
(`src/data/data_transformers.py` and `src/data/data_ingestion.py`).

Modelling conventions:
- JSON dictionary fields read with `.get(...)` are `Option` fields of a
  structure (`none` = key absent; JSON `null` is conflated with absence,
  matching how pandas turns both into NaN).
- A direct subscript access `d['k']` that can raise `KeyError`, and any
  other Python exception (such as the orchestrator's unbound-local error),
  is modelled by computing in `Except String`.
- Machine floats are modelled as exact rationals (`Rat`); timestamps as
  epoch seconds (`Int`).  The external datetime parser
  (`pd.to_datetime(..., errors="coerce")`) is passed in as a parameter
  `parse : String → Option Int`; an unparseable string yields `none` (NaT).
- A pandas DataFrame is a list of row structures in row order; a pandas
  column that is only set for some rows is an `Option` field.
-/

namespace FFM

/-- A bootstrap `elements` entry (static player metadata). -/
structure BElem where
  id : Option Int
  element_type : Option Int
  team : Option Int
deriving DecidableEq

/-- A bootstrap `teams` entry. -/
structure TeamRec where
  id : Option Int
  name : Option String
deriving DecidableEq

/-- The bootstrap-static payload.  Each field is `none` when the
corresponding top-level key is absent from the JSON object. -/
structure Bootstrap where
  elements : Option (List BElem)
  teams : Option (List TeamRec)
  events : Option (List Int)
deriving DecidableEq

/-- A raw fixture record from the fixtures endpoint. -/
structure Fixture where
  id : Option Int
  event : Option Int
  team_a : Option Int
  team_h : Option Int
  team_a_difficulty : Option Int
  team_h_difficulty : Option Int
  kickoff_time : Option String
  finished : Option Bool
  team_a_score : Option Int
  team_h_score : Option Int
deriving DecidableEq

/-- A player history entry (one past match of one player). -/
structure HistEntry where
  round : Option Int
  id : Option Int
  opponent_team : Option Int
  was_home : Option Bool
  minutes : Option Int
  total_points : Option Int
  goals_scored : Option Int
  assists : Option Int
  clean_sheets : Option Int
  goals_conceded : Option Int
  own_goals : Option Int
  penalties_saved : Option Int
  penalties_missed : Option Int
  yellow_cards : Option Int
  red_cards : Option Int
  saves : Option Int
  bonus : Option Int
  bps : Option Int
  influence : Option Rat
  creativity : Option Rat
  threat : Option Rat
  ict_index : Option Rat
  value : Option Int
  transfers_balance : Option Int
  selected : Option Int
  transfers_in : Option Int
  transfers_out : Option Int
deriving DecidableEq

/-- The per-player `data` payload; `history` read with `.get('history', [])`. -/
structure PlayerData where
  history : Option (List HistEntry)
deriving DecidableEq

/-- One element of `all_players_data`: `player_id` and `data` are read by
direct subscript, so absence raises. -/
structure PlayerEntry where
  player_id : Option Int
  data : Option PlayerData
deriving DecidableEq

/-- A row of the `player_match_stats_raw` table.  `element_type` and
`team_id` are doubly optional: the outer layer records whether the column
key was set for this row at all (only when the player id is found in the
bootstrap lookup), the inner layer is the looked-up value. -/
structure PlayerRow where
  player_id : Int
  season : String
  gameweek : Option Int
  match_id : Option Int
  opponent_team_id : Option Int
  was_home : Bool
  minutes : Int
  total_points : Int
  goals_scored : Int
  assists : Int
  clean_sheets : Int
  goals_conceded : Int
  own_goals : Int
  penalties_saved : Int
  penalties_missed : Int
  yellow_cards : Int
  red_cards : Int
  saves : Int
  bonus : Int
  bps : Int
  influence : Rat
  creativity : Rat
  threat : Rat
  ict_index : Rat
  value : Int
  transfers_balance : Int
  selected : Int
  transfers_in : Int
  transfers_out : Int
  element_type : Option (Option Int)
  team_id : Option (Option Int)
deriving DecidableEq

/-- A row of the fixtures table.  `kickoff_time` is the parsed timestamp
(the code overwrites the raw string column in place). -/
structure FixtureRow where
  match_id : Option Int
  season : String
  gameweek : Option Int
  team_id : Option Int
  opponent_team_id : Option Int
  was_home : Bool
  fixture_difficulty : Int
  kickoff_time : Option Int
  finished : Bool
  team_a_score : Option Int
  team_h_score : Option Int
  team_name : Option String
  opponent_team_name : Option String
  days_rest : Rat
  is_double_gw : Bool
deriving DecidableEq

/-- The six-field group key used by `create_team_match_stats`; rows with a
null component are dropped by the pandas `groupby`. -/
structure TeamKey where
  team_id : Int
  season : String
  gameweek : Int
  match_id : Int
  opponent_team_id : Int
  was_home : Bool
deriving DecidableEq

/-- An aggregated (pre-reconciliation) team/match group. -/
structure TeamAgg where
  key : TeamKey
  goals_scored : Int
  assists : Int
  clean_sheets : Int
  goals_conceded : Int
  yellow_cards : Int
  red_cards : Int
  total_points : Int
  bps : Int
deriving DecidableEq

/-- A row of the `team_match_stats` table.  `team_goals` and
`team_goals_conceded` are optional because the reconciliation step can
leave NaN in them. -/
structure TeamRow where
  team_id : Int
  season : String
  gameweek : Int
  match_id : Int
  opponent_team_id : Int
  was_home : Bool
  team_goals : Option Int
  assists : Int
  team_clean_sheet : Int
  team_goals_conceded : Option Int
  yellow_cards : Int
  red_cards : Int
  total_points : Int
  bps : Int
  team_name : Option String
  opponent_team_name : Option String
deriving DecidableEq

/-! ### Dictionary helpers -/

/-- Association-list lookup, first match wins (used with the newest
binding at the head). -/
def alookup {α : Type} (l : List (Int × α)) (k : Int) : Option α :=
  (l.find? (fun p => p.1 == k)).map (fun p => p.2)

/-- Lookup in a dict built by a comprehension in list order: Python dicts
keep the LAST binding for a duplicated key. -/
def dictLookup {α : Type} (l : List (Int × α)) (k : Int) : Option α :=
  alookup l.reverse k

/-- Direct subscript access `d['k']`: raises `KeyError` when absent. -/
def getKey {α : Type} (v : Option α) (k : String) : Except String α :=
  match v with
  | some x => .ok x
  | none => .error ("KeyError: " ++ k)

/-! ### `create_player_match_stats_raw` -/

/-- `players_lookup = {p['id']: p for p in bootstrap_data['elements']}` —
evaluating the comprehension raises when an element has no `id`. -/
def playersLookupE : List BElem → Except String (List (Int × BElem))
  | [] => .ok []
  | p :: ps =>
    match p.id with
    | some i => (playersLookupE ps).map (fun l => (i, p) :: l)
    | none => .error "KeyError: id"

/-- Build one `player_match_stats_raw` record from a history entry
(lines 52–89 of `data_transformers.py`). -/
def mkPlayerRow (lk : List (Int × BElem)) (season : String) (pid : Int)
    (m : HistEntry) : PlayerRow :=
  { player_id := pid
    season := season
    gameweek := m.round
    match_id := m.id
    opponent_team_id := m.opponent_team
    was_home := m.was_home.getD false
    minutes := m.minutes.getD 0
    total_points := m.total_points.getD 0
    goals_scored := m.goals_scored.getD 0
    assists := m.assists.getD 0
    clean_sheets := m.clean_sheets.getD 0
    goals_conceded := m.goals_conceded.getD 0
    own_goals := m.own_goals.getD 0
    penalties_saved := m.penalties_saved.getD 0
    penalties_missed := m.penalties_missed.getD 0
    yellow_cards := m.yellow_cards.getD 0
    red_cards := m.red_cards.getD 0
    saves := m.saves.getD 0
    bonus := m.bonus.getD 0
    bps := m.bps.getD 0
    influence := m.influence.getD 0
    creativity := m.creativity.getD 0
    threat := m.threat.getD 0
    ict_index := m.ict_index.getD 0
    value := m.value.getD 0
    transfers_balance := m.transfers_balance.getD 0
    selected := m.selected.getD 0
    transfers_in := m.transfers_in.getD 0
    transfers_out := m.transfers_out.getD 0
    element_type := (dictLookup lk pid).map (fun p => p.element_type)
    team_id := (dictLookup lk pid).map (fun p => p.team) }

/-- The main loop over `all_players_data`: per entry, direct accesses to
`player_id` and `data`, then one record per history entry. -/
def emitPlayers (lk : List (Int × BElem)) (season : String) :
    List PlayerEntry → Except String (List PlayerRow)
  | [] => .ok []
  | pe :: rest => do
    let pid ← getKey pe.player_id "player_id"
    let pd ← getKey pe.data "data"
    let rs ← emitPlayers lk season rest
    .ok ((pd.history.getD []).map (mkPlayerRow lk season pid) ++ rs)

/-- Stable insertion of `x` into a sorted list: `x` goes before the first
element it compares `le` to, so earlier rows stay before equal-keyed later
rows. -/
def insertLe {α : Type} (le : α → α → Bool) (x : α) : List α → List α
  | [] => [x]
  | y :: ys => if le x y then x :: y :: ys else y :: insertLe le x ys

/-- Stable sort by a total preorder.  pandas multi-column `sort_values`
is a stable lexicographic sort, and a stable sort for a given total
preorder is unique, so insertion sort computes exactly its result. -/
def sortLe {α : Type} (le : α → α → Bool) : List α → List α
  | [] => []
  | x :: xs => insertLe le x (sortLe le xs)

/-- `none` sorts after every value (pandas puts NaN last when sorting). -/
def optLt (a b : Option Int) : Bool :=
  match a, b with
  | some x, some y => x < y
  | some _, none => true
  | none, _ => false

/-- Non-strict companion of `optLt`. -/
def optLe (a b : Option Int) : Bool :=
  match a, b with
  | some x, some y => x ≤ y
  | some _, none => true
  | none, some _ => false
  | none, none => true

/-- String comparison for sort keys. -/
def strLe (a b : String) : Bool := a == b || a < b

/-- Sort key of `df.sort_values(['player_id', 'season', 'gameweek'])`. -/
def playerKeyLe (r s : PlayerRow) : Bool :=
  r.player_id < s.player_id ||
    (r.player_id == s.player_id &&
      ((r.season != s.season && r.season < s.season) ||
        (r.season == s.season && optLe r.gameweek s.gameweek)))

/-- `create_player_match_stats_raw` (lines 17–98): builds the lookup from
bootstrap, emits one row per history entry, and sorts the non-empty result
by `(player_id, season, gameweek)` (pandas multi-key sorts are stable). -/
def create_player_match_stats_raw (bootstrap_data : Bootstrap)
    (all_players_data : List PlayerEntry) (season : String) :
    Except String (List PlayerRow) := do
  let elems ← getKey bootstrap_data.elements "elements"
  let lk ← playersLookupE elems
  let records ← emitPlayers lk season all_players_data
  if records.isEmpty then .ok records
  else .ok (sortLe playerKeyLe records)

/-! ### `create_fixtures_table` -/

/-- `teams_lookup = {t['id']: t for t in bootstrap_data['teams']}` —
raises when a team record has no `id`. -/
def teamsLookupE : List TeamRec → Except String (List (Int × TeamRec))
  | [] => .ok []
  | t :: ts =>
    match t.id with
    | some i => (teamsLookupE ts).map (fun l => (i, t) :: l)
    | none => .error "KeyError: id"

/-- `if fixture.get('team_x') in teams_lookup: ... teams_lookup[...]['name']`:
yields `none` when the id is missing or unknown, raises when the looked-up
team record has no `name` key. -/
def teamNameE (lk : List (Int × TeamRec)) (tid : Option Int) :
    Except String (Option String) :=
  match tid.bind (dictLookup lk) with
  | none => .ok none
  | some t =>
    match t.name with
    | some n => .ok (some n)
    | none => .error "KeyError: name"

/-- The away-team-perspective record for one raw fixture
(lines 132–152 of `data_transformers.py`). -/
def awayRecord (parse : String → Option Int) (lk : List (Int × TeamRec))
    (season : String) (f : Fixture) : Except String FixtureRow := do
  let tn ← teamNameE lk f.team_a
  let opn ← teamNameE lk f.team_h
  .ok { match_id := f.id
        season := season
        gameweek := f.event
        team_id := f.team_a
        opponent_team_id := f.team_h
        was_home := false
        fixture_difficulty := f.team_a_difficulty.getD 0
        kickoff_time := f.kickoff_time.bind parse
        finished := f.finished.getD false
        team_a_score := f.team_a_score
        team_h_score := f.team_h_score
        team_name := tn
        opponent_team_name := opn
        days_rest := 0
        is_double_gw := false }

/-- The home-team-perspective record for one raw fixture
(lines 154–174 of `data_transformers.py`). -/
def homeRecord (parse : String → Option Int) (lk : List (Int × TeamRec))
    (season : String) (f : Fixture) : Except String FixtureRow := do
  let tn ← teamNameE lk f.team_h
  let opn ← teamNameE lk f.team_a
  .ok { match_id := f.id
        season := season
        gameweek := f.event
        team_id := f.team_h
        opponent_team_id := f.team_a
        was_home := true
        fixture_difficulty := f.team_h_difficulty.getD 0
        kickoff_time := f.kickoff_time.bind parse
        finished := f.finished.getD false
        team_a_score := f.team_a_score
        team_h_score := f.team_h_score
        team_name := tn
        opponent_team_name := opn
        days_rest := 0
        is_double_gw := false }

/-- The emission loop: two records per raw fixture, away perspective
first. -/
def emitFixtures (parse : String → Option Int) (lk : List (Int × TeamRec))
    (season : String) : List Fixture → Except String (List FixtureRow)
  | [] => .ok []
  | f :: fs => do
    let a ← awayRecord parse lk season f
    let h ← homeRecord parse lk season f
    let rest ← emitFixtures parse lk season fs
    .ok (a :: h :: rest)

/-- The sort key of `df.sort_values(['team_id', 'gameweek', 'kickoff_time'])`. -/
def fixKey (r : FixtureRow) : Option Int × Option Int × Option Int :=
  (r.team_id, r.gameweek, r.kickoff_time)

/-- Lexicographic comparison of the three-part sort key, NaN last. -/
def tripleLe (a b : Option Int × Option Int × Option Int) : Bool :=
  optLt a.1 b.1 ||
    (a.1 == b.1 && (optLt a.2.1 b.2.1 ||
      (a.2.1 == b.2.1 && optLe a.2.2 b.2.2)))

/-- Row ordering used by the fixtures-table sort. -/
def fixtureKeyLe (r s : FixtureRow) : Bool :=
  tripleLe (fixKey r) (fixKey s)

/-- `diff().dt.total_seconds() / (24 * 3600)` on a pair of optional
timestamps, with `fillna(0)`: `0` unless both ends are present. -/
def restOf (pk : Option (Option Int)) (cur : Option Int) : Rat :=
  match pk, cur with
  | some (some b), some a => ((a - b : Int) : Rat) / 86400
  | _, _ => 0

/-- `df.groupby('team_id')['kickoff_time'].diff()` threaded left to right:
`prev` maps a team id to the kickoff of that team's most recent earlier
row (rows with a null `team_id` belong to no group). -/
def daysRestAux (prev : List (Int × Option Int)) :
    List FixtureRow → List FixtureRow
  | [] => []
  | r :: rest =>
    match r.team_id with
    | none => { r with days_rest := 0 } :: daysRestAux prev rest
    | some tid =>
      { r with days_rest := restOf (alookup prev tid) r.kickoff_time } ::
        daysRestAux ((tid, r.kickoff_time) :: prev) rest

/-- `gw_counts.get((row['team_id'], row['gameweek']), 0) > 1`: pandas
`groupby` creates no group for a null key, so such rows read the default
`0` and are never flagged. -/
def isDoubleGW (rows : List FixtureRow) (r : FixtureRow) : Bool :=
  match r.team_id, r.gameweek with
  | some t, some g =>
    decide (1 < rows.countP
      (fun s => s.team_id == some t && s.gameweek == some g))
  | _, _ => false

/-- Lines 176–191 applied to the emitted records: sort by
`(team_id, gameweek, kickoff_time)` (stable, NaN last), add `days_rest`,
then add `is_double_gw`. -/
def annotateFixtures (records : List FixtureRow) : List FixtureRow :=
  let sorted := sortLe fixtureKeyLe records
  let rested := daysRestAux [] sorted
  rested.map (fun r => { r with is_double_gw := isDoubleGW rested r })

/-- `create_fixtures_table` (lines 101–193): empty input short-circuits
before any bootstrap access; otherwise emit two perspective rows per
fixture, parse kickoffs, sort, compute per-team rest days and the
double-gameweek flag. -/
def create_fixtures_table (parse : String → Option Int)
    (fixtures_data : List Fixture) (bootstrap_data : Bootstrap)
    (season : String) : Except String (List FixtureRow) :=
  if fixtures_data.isEmpty then .ok []
  else do
    let teams ← getKey bootstrap_data.teams "teams"
    let lk ← teamsLookupE teams
    let records ← emitFixtures parse lk season fixtures_data
    .ok (annotateFixtures records)

/-- A fixture-table row with its two derived annotations cleared: the
emission fields every later stage preserves. -/
def core (r : FixtureRow) : FixtureRow :=
  { r with days_rest := 0, is_double_gw := false }

/-- The `(team_id, kickoff_time)` projection that drives the rest-day
computation. -/
def tkOf (r : FixtureRow) : Option Int × Option Int :=
  (r.team_id, r.kickoff_time)

/-- The kickoff of the last row of team `tid` in `pre` (a list of
`tkOf` projections), starting from `init`. -/
def lastKickFrom (init : Option (Option Int))
    (pre : List (Option Int × Option Int)) (tid : Int) : Option (Option Int) :=
  pre.foldl (fun acc p => if p.1 == some tid then some p.2 else acc) init

/-- Positional specification of `days_rest`: the elapsed days between a
row's kickoff and the kickoff of the same team's immediately preceding
row among `pre`, `0` for a first row, a null team id, or a null timestamp
at either end. -/
def daysRestSpec (pre : List FixtureRow) (r : FixtureRow) : Rat :=
  match r.team_id with
  | none => 0
  | some tid => restOf (lastKickFrom none (pre.map tkOf) tid) r.kickoff_time

/-- Generalisation of `daysRestSpec` by the accumulator threaded through
`daysRestAux`. -/
def daysRestSpecFrom (prev : List (Int × Option Int)) (pre : List FixtureRow)
    (r : FixtureRow) : Rat :=
  match r.team_id with
  | none => 0
  | some tid =>
    restOf (lastKickFrom (alookup prev tid) (pre.map tkOf) tid) r.kickoff_time

/-! ### `create_team_match_stats` -/

/-- The group key of a player row, when complete: pandas `groupby` drops
rows whose `team_id` (absent or null), `gameweek`, `match_id` or
`opponent_team_id` is NaN. -/
def keyOf (r : PlayerRow) : Option TeamKey :=
  match r.team_id.join, r.gameweek, r.match_id, r.opponent_team_id with
  | some t, some g, some m, some o =>
    some { team_id := t, season := r.season, gameweek := g, match_id := m,
           opponent_team_id := o, was_home := r.was_home }
  | _, _, _, _ => none

/-- `groupby(..., sort=True)` orders the groups by the key tuple,
`False < True` for booleans. -/
def teamKeyLe (a b : TeamKey) : Bool :=
  a.team_id < b.team_id || (a.team_id == b.team_id &&
    ((a.season != b.season && a.season < b.season) || (a.season == b.season &&
      (a.gameweek < b.gameweek || (a.gameweek == b.gameweek &&
        (a.match_id < b.match_id || (a.match_id == b.match_id &&
          (a.opponent_team_id < b.opponent_team_id ||
            (a.opponent_team_id == b.opponent_team_id &&
              (!a.was_home || b.was_home))))))))))

/-- `max` aggregation over a (non-empty) group column. -/
def listMax : List Int → Int
  | [] => 0
  | x :: xs => xs.foldl max x

/-- The player rows belonging to one group key. -/
def groupRows (rows : List PlayerRow) (k : TeamKey) : List PlayerRow :=
  rows.filter (fun r => keyOf r == some k)

/-- The `.agg(...)` reductions of lines 223–232: sum for goals, assists,
cards, points and bps; max for clean sheets and goals conceded. -/
def aggRow (rows : List PlayerRow) (k : TeamKey) : TeamAgg :=
  let g := groupRows rows k
  { key := k
    goals_scored := (g.map (fun r => r.goals_scored)).sum
    assists := (g.map (fun r => r.assists)).sum
    clean_sheets := listMax (g.map (fun r => r.clean_sheets))
    goals_conceded := listMax (g.map (fun r => r.goals_conceded))
    yellow_cards := (g.map (fun r => r.yellow_cards)).sum
    red_cards := (g.map (fun r => r.red_cards)).sum
    total_points := (g.map (fun r => r.total_points)).sum
    bps := (g.map (fun r => r.bps)).sum }

/-- The grouped-and-aggregated intermediate `team_stats` frame of
lines 221–232: one row per complete key, ordered by the key. -/
def aggregateTeamStats (rows : List PlayerRow) : List TeamAgg :=
  (sortLe teamKeyLe ((rows.filterMap keyOf).dedup)).map (aggRow rows)

/-- The join predicate of the left merge on
`(match_id, team_id, opponent_team_id, was_home)`; a NaN on the fixtures
side never matches. -/
def joinMatch (k : TeamKey) (f : FixtureRow) : Bool :=
  f.match_id == some k.match_id && f.team_id == some k.team_id &&
    f.opponent_team_id == some k.opponent_team_id && f.was_home == k.was_home

/-- `merge(..., how='left')`: left rows in order; each matching right row
produces an output row, an unmatched left row survives with NaN fixture
columns. -/
def mergeFixtures (team_stats : List TeamAgg) (fixtures : List FixtureRow) :
    List (TeamAgg × Option FixtureRow) :=
  (team_stats.map (fun t =>
    let ms := fixtures.filter (joinMatch t.key)
    if ms.isEmpty then [(t, none)] else ms.map (fun f => (t, some f)))).flatten

/-- The lambda of lines 245–249 with Python's conditional-expression
grouping: `h if was_home else (a if notna(h) else agg)` — a home row takes
`team_h_score` even when it is NaN. -/
def reconGoals (t : TeamAgg) (fx : Option FixtureRow) : Option Int :=
  if t.key.was_home then fx.bind (fun f => f.team_h_score)
  else if (fx.bind (fun f => f.team_h_score)).isSome then
    fx.bind (fun f => f.team_a_score)
  else some t.goals_scored

/-- The lambda of lines 250–254, grouped the same way:
`a if was_home else (h if notna(a) else agg)`. -/
def reconConceded (t : TeamAgg) (fx : Option FixtureRow) : Option Int :=
  if t.key.was_home then fx.bind (fun f => f.team_a_score)
  else if (fx.bind (fun f => f.team_a_score)).isSome then
    fx.bind (fun f => f.team_h_score)
  else some t.goals_conceded

/-- `{t['id']: t['name'] for t in bootstrap_data['teams']}` — raises when
a team record lacks `id` or `name`. -/
def teamsNameLookupE : List TeamRec → Except String (List (Int × String))
  | [] => .ok []
  | t :: ts =>
    match t.id, t.name with
    | some i, some n => (teamsNameLookupE ts).map (fun l => (i, n) :: l)
    | _, _ => .error "KeyError: id or name"

/-- `create_team_match_stats` (lines 196–270): empty player stats
short-circuit; group and aggregate — the `groupby` of line 221 raises
`KeyError` when the non-empty player table has no `team_id` column, i.e.
when no row carries the field (the other five group keys and all
aggregated columns are set on every emitted row, so only `team_id` can be
missing); left-merge against the fixtures table and apply the two
reconciliation lambdas (only when the fixtures table is non-empty);
rename and attach team names. -/
def create_team_match_stats (player_match_stats : List PlayerRow)
    (fixtures : List FixtureRow) (bootstrap_data : Bootstrap) :
    Except String (List TeamRow) :=
  if player_match_stats.isEmpty then .ok []
  else if player_match_stats.all (fun r => r.team_id.isNone) then
    .error "KeyError: team_id"
  else do
    let team_stats := aggregateTeamStats player_match_stats
    let merged : List (TeamAgg × Option FixtureRow × Option Int × Option Int) :=
      if fixtures.isEmpty then
        team_stats.map (fun t =>
          (t, none, some t.goals_scored, some t.goals_conceded))
      else
        (mergeFixtures team_stats fixtures).map (fun p =>
          (p.1, p.2, reconGoals p.1 p.2, reconConceded p.1 p.2))
    let teams ← getKey bootstrap_data.teams "teams"
    let nameLk ← teamsNameLookupE teams
    .ok (merged.map (fun q =>
      { team_id := q.1.key.team_id
        season := q.1.key.season
        gameweek := q.1.key.gameweek
        match_id := q.1.key.match_id
        opponent_team_id := q.1.key.opponent_team_id
        was_home := q.1.key.was_home
        team_goals := q.2.2.1
        assists := q.1.assists
        team_clean_sheet := q.1.clean_sheets
        team_goals_conceded := q.2.2.2
        yellow_cards := q.1.yellow_cards
        red_cards := q.1.red_cards
        total_points := q.1.total_points
        bps := q.1.bps
        team_name := dictLookup nameLk q.1.key.team_id
        opponent_team_name := dictLookup nameLk q.1.key.opponent_team_id }))

/-! ### `run_ingestion_pipeline` (step 4 of `data_ingestion.py`) -/

/-- The tables built (and persisted) by one pipeline run; `none` means the
stage was skipped. -/
structure PipelineResult where
  fixtures_table : Option (List FixtureRow)
  player_table : Option (List PlayerRow)
  team_table : Option (List TeamRow)
deriving DecidableEq

/-- The orchestrator (lines 83–206 of `data_ingestion.py`), with fetching
and persistence abstracted away: the bootstrap length logging of
lines 117–119 performs three direct subscript accesses; `fixtures_df` is
a local only assigned inside `if fixtures_data:`, so the later
`fixtures_df.empty` test raises an unbound-local error when fixtures were
empty but player data was fetched; the team stage is guarded by
`all_players_data` being non-empty (not by the player table) and by
`fixtures_df` being non-empty. -/
def run_ingestion_pipeline (parse : String → Option Int)
    (bootstrap_data : Bootstrap) (fixtures_data : List Fixture)
    (all_players_data : List PlayerEntry) (season : String) :
    Except String PipelineResult := do
  let _ ← getKey bootstrap_data.elements "elements"
  let _ ← getKey bootstrap_data.teams "teams"
  let _ ← getKey bootstrap_data.events "events"
  let fixtures_df : Option (List FixtureRow) ←
    if fixtures_data.isEmpty then pure none
    else do
      let t ← create_fixtures_table parse fixtures_data bootstrap_data season
      pure (some t)
  if all_players_data.isEmpty then
    pure { fixtures_table := fixtures_df, player_table := none,
           team_table := none }
  else do
    let player_stats_df ←
      create_player_match_stats_raw bootstrap_data all_players_data season
    match fixtures_df with
    | none => .error "UnboundLocalError: fixtures_df"
    | some ft =>
      if ft.isEmpty then
        pure { fixtures_table := fixtures_df,
               player_table := some player_stats_df, team_table := none }
      else do
        let team_stats_df ← create_team_match_stats player_stats_df ft
          bootstrap_data
        pure { fixtures_table := fixtures_df,
               player_table := some player_stats_df,
               team_table := some team_stats_df }

/-! ### Concrete inputs used by counterexamples and witnesses -/

/-- A stand-in for the external timestamp parser: digit strings are epoch
seconds, everything else is unparseable (`none`). -/
def parseDemo (s : String) : Option Int := s.toInt?

/-- Bootstrap element list of the demo bootstrap. -/
def elemsDemo : List BElem := [{ id := some 10, element_type := some 3, team := some 1 }]

/-- Team list of the demo bootstrap. -/
def teamsDemo : List TeamRec :=
  [{ id := some 1, name := some "Alpha" },
   { id := some 2, name := some "Beta" }]

/-- A well-formed two-team demo bootstrap payload. -/
def bsDemo : Bootstrap :=
  { elements := some elemsDemo
    teams := some teamsDemo
    events := some [1] }

/-- The player lookup built from `elemsDemo`. -/
def lkDemo : List (Int × BElem) :=
  [(10, { id := some 10, element_type := some 3, team := some 1 })]

/-- A bootstrap payload missing every top-level key. -/
def bsEmpty : Bootstrap := { elements := none, teams := none, events := none }

/-- A history entry with several absent numeric fields. -/
def histDemo : HistEntry :=
  { round := some 1, id := some 100, opponent_team := some 2,
    was_home := some true, minutes := some 90, total_points := some 9,
    goals_scored := some 1, assists := none, clean_sheets := some 0,
    goals_conceded := some 1, own_goals := none, penalties_saved := none,
    penalties_missed := none, yellow_cards := none, red_cards := none,
    saves := none, bonus := none, bps := some 30, influence := none,
    creativity := none, threat := none, ict_index := none, value := none,
    transfers_balance := none, selected := none, transfers_in := none,
    transfers_out := none }

/-- A one-player payload list with one history entry. -/
def apdDemo : List PlayerEntry :=
  [{ player_id := some 10, data := some { history := some [histDemo] } }]

/-- A template player-stats row (team 1 at home in match 100). -/
def pRow0 : PlayerRow :=
  { player_id := 0, season := "2024-25", gameweek := some 1,
    match_id := some 100, opponent_team_id := some 2, was_home := true,
    minutes := 90, total_points := 0, goals_scored := 0, assists := 0,
    clean_sheets := 0, goals_conceded := 1, own_goals := 0,
    penalties_saved := 0, penalties_missed := 0, yellow_cards := 0,
    red_cards := 0, saves := 0, bonus := 0, bps := 0, influence := 0,
    creativity := 0, threat := 0, ict_index := 0, value := 0,
    transfers_balance := 0, selected := 0, transfers_in := 0,
    transfers_out := 0, element_type := some (some 3),
    team_id := some (some 1) }

/-- Two players of team 1 in the same match, scoring 1 and 2 goals. -/
def psC1 : List PlayerRow :=
  [{ pRow0 with player_id := 10, goals_scored := 1 },
   { pRow0 with player_id := 11, goals_scored := 2 }]

/-- A fixtures-table row joining to the `psC1` group whose authoritative
scores are both null (an unfinished fixture). -/
def fxRow0 : FixtureRow :=
  { match_id := some 100, season := "2024-25", gameweek := some 1,
    team_id := some 1, opponent_team_id := some 2, was_home := true,
    fixture_difficulty := 2, kickoff_time := some 0, finished := false,
    team_a_score := none, team_h_score := none, team_name := some "Alpha",
    opponent_team_name := some "Beta", days_rest := 0,
    is_double_gw := false }

/-- The one-row fixtures table with null scores. -/
def fxC1 : List FixtureRow := [fxRow0]

/-- The successful value of an `Except`, for naming concrete outputs. -/
def okD {α : Type} (e : Except String (List α)) : List α :=
  match e with
  | .ok l => l
  | .error _ => []

/-- Three raw fixtures: team 1 plays twice in gameweek 1 (kickoffs one day
apart) and once in gameweek 2, six days after its second match. -/
def fxMulti : List Fixture :=
  [{ id := some 100, event := some 1, team_a := some 2, team_h := some 1,
     team_a_difficulty := some 4, team_h_difficulty := some 2,
     kickoff_time := some "0", finished := some true,
     team_a_score := some 1, team_h_score := some 3 },
   { id := some 101, event := some 1, team_a := some 1, team_h := some 2,
     team_a_difficulty := some 3, team_h_difficulty := none,
     kickoff_time := some "86400", finished := some false,
     team_a_score := none, team_h_score := none },
   { id := some 102, event := some 2, team_a := some 1, team_h := some 2,
     team_a_difficulty := some 5, team_h_difficulty := some 2,
     kickoff_time := some "604800", finished := some false,
     team_a_score := none, team_h_score := none }]

/-- The fixtures table built from `fxMulti`. -/
def rowsMulti : List FixtureRow :=
  okD (create_fixtures_table parseDemo fxMulti bsDemo "2024-25")

/-- The player table built from the demo payload. -/
def rowsPlayerDemo : List PlayerRow :=
  okD (create_player_match_stats_raw bsDemo apdDemo "2024-25")

/-- The first row of the demo fixtures table (team 1, gameweek 1). -/
def rowM0 : FixtureRow := rowsMulti.headD fxRow0

/-- The single row of the demo player table. -/
def rowP0 : PlayerRow := rowsPlayerDemo.headD pRow0

/-! ### Claims -/

/-- C1: in `create_team_match_stats`, the spec and its own comment say the
aggregated values are kept when the authoritative fixture score is null.
The code's conditional expressions group as
`h if was_home else (a if notna(h) else agg)`, so for a home-perspective
row a null `team_h_score` overwrites both `team_goals` and
`team_goals_conceded` with NaN instead of keeping the aggregated 3 and 1:
the aggregate is never the fallback on home rows. -/
theorem claim_C1_reconciliation_bug :
    (create_team_match_stats psC1 fxC1 bsDemo).map
        (fun l => l.map (fun r => (r.team_goals, r.team_goals_conceded))) =
      .ok [(none, none)] ∧
    (aggregateTeamStats psC1).map
        (fun a => (a.goals_scored, a.goals_conceded)) = [(3, 1)] :=
  ⟨rfl, rfl⟩

/-- C3: the orchestrator only assigns `fixtures_df` inside
`if fixtures_data:`, so an empty fixture list together with fetched player
data makes the later `fixtures_df.empty` test raise an unbound-local
error instead of skipping the team-stats stage. -/
theorem claim_C3_unbound_local :
    run_ingestion_pipeline parseDemo bsDemo [] apdDemo "2024-25" =
      .error "UnboundLocalError: fixtures_df" :=
  rfl

/-- C4, counterexample: the player-stats builder raises `KeyError` on a
bootstrap payload with no `elements` key, so the builders do not tolerate
every missing field. -/
theorem claim_C4_counterexample :
    create_player_match_stats_raw bsEmpty apdDemo "2024-25" =
      .error "KeyError: elements" :=
  rfl

/-- C9: each builder returns an empty table, raising nothing, on an empty
primary input: `create_fixtures_table` and `create_team_match_stats`
short-circuit before touching the bootstrap at all, while
`create_player_match_stats_raw` still builds the player lookup first (the
hypotheses say that construction succeeds). -/
theorem claim_C9_empty_inputs (parse : String → Option Int) (bs : Bootstrap)
    (season : String) (fixtures : List FixtureRow) (elems : List BElem)
    (lk : List (Int × BElem)) (hE : bs.elements = some elems)
    (hLk : playersLookupE elems = .ok lk) :
    create_fixtures_table parse [] bs season = .ok [] ∧
    create_player_match_stats_raw bs [] season = .ok [] ∧
    create_team_match_stats [] fixtures bs = .ok [] := by
  refine ⟨rfl, ?_, rfl⟩
  simp [create_player_match_stats_raw, hE, getKey, hLk, emitPlayers, bind,
    Except.bind]

/-- C9, witness: the empty-input behaviour at the demo bootstrap. -/
theorem claim_C9_empty_inputs_witness :
    create_fixtures_table parseDemo [] bsDemo "2024-25" = .ok [] ∧
    create_player_match_stats_raw bsDemo [] "2024-25" = .ok [] ∧
    create_team_match_stats [] [] bsDemo = .ok [] :=
  claim_C9_empty_inputs parseDemo bsDemo "2024-25" [] elemsDemo lkDemo rfl rfl

/-! ### Stable-sort lemmas -/

theorem insertLe_perm {α : Type} (le : α → α → Bool) (x : α) (l : List α) :
    (insertLe le x l).Perm (x :: l) := by
  induction l with
  | nil => simp [insertLe]
  | cons y ys ih =>
    simp only [insertLe]
    cases hxy : le x y
    · rw [if_neg (by simp [hxy])]
      exact (ih.cons y).trans (List.Perm.swap x y ys)
    · rw [if_pos rfl]

theorem sortLe_perm {α : Type} (le : α → α → Bool) (l : List α) :
    (sortLe le l).Perm l := by
  induction l with
  | nil => simp [sortLe]
  | cons x xs ih => exact (insertLe_perm le x (sortLe le xs)).trans (ih.cons x)

theorem pairwise_insertLe {α : Type} {le : α → α → Bool}
    (htr : ∀ a b c, le a b = true → le b c = true → le a c = true)
    (hto : ∀ a b, le a b = true ∨ le b a = true)
    (x : α) {l : List α} (hl : l.Pairwise (fun a b => le a b = true)) :
    (insertLe le x l).Pairwise (fun a b => le a b = true) := by
  induction l with
  | nil => simp [insertLe]
  | cons y ys ih =>
    rw [List.pairwise_cons] at hl
    obtain ⟨hy, hys⟩ := hl
    simp only [insertLe]
    cases hxy : le x y
    · have hyx : le y x = true := by
        rcases hto x y with h | h
        · rw [h] at hxy; cases hxy
        · exact h
      rw [if_neg (by simp [hxy])]
      rw [List.pairwise_cons]
      refine ⟨?_, ih hys⟩
      intro z hz
      have hz2 : z ∈ x :: ys := (insertLe_perm le x ys).mem_iff.mp hz
      rcases List.mem_cons.mp hz2 with rfl | hz3
      · exact hyx
      · exact hy z hz3
    · rw [if_pos rfl]
      rw [List.pairwise_cons]
      refine ⟨?_, ?_⟩
      · intro z hz
        rcases List.mem_cons.mp hz with rfl | hz3
        · exact hxy
        · exact htr x y z hxy (hy z hz3)
      · rw [List.pairwise_cons]; exact ⟨hy, hys⟩

theorem pairwise_sortLe {α : Type} {le : α → α → Bool}
    (htr : ∀ a b c, le a b = true → le b c = true → le a c = true)
    (hto : ∀ a b, le a b = true ∨ le b a = true) (l : List α) :
    (sortLe le l).Pairwise (fun a b => le a b = true) := by
  induction l with
  | nil => simp [sortLe]
  | cons x xs ih => exact pairwise_insertLe htr hto x ih

/-! ### The fixture sort key is a total preorder -/

theorem optLt_trans {a b c : Option Int} (h1 : optLt a b = true)
    (h2 : optLt b c = true) : optLt a c = true := by
  cases a <;> cases b <;> cases c <;> simp_all [optLt]
  omega

theorem optInt_tricho (a b : Option Int) :
    optLt a b = true ∨ a = b ∨ optLt b a = true := by
  cases a <;> cases b <;> simp [optLt]
  omega

theorem optLe_total (a b : Option Int) :
    optLe a b = true ∨ optLe b a = true := by
  cases a <;> cases b <;> simp [optLe]
  omega

theorem optLe_trans {a b c : Option Int} (h1 : optLe a b = true)
    (h2 : optLe b c = true) : optLe a c = true := by
  cases a <;> cases b <;> cases c <;> simp_all [optLe]
  omega

theorem tripleLe_trans (a b c : Option Int × Option Int × Option Int)
    (h1 : tripleLe a b = true) (h2 : tripleLe b c = true) :
    tripleLe a c = true := by
  obtain ⟨a1, a2, a3⟩ := a
  obtain ⟨b1, b2, b3⟩ := b
  obtain ⟨c1, c2, c3⟩ := c
  simp only [tripleLe, Bool.or_eq_true, Bool.and_eq_true, beq_iff_eq] at h1 h2 ⊢
  rcases h1 with h1 | ⟨rfl, h1⟩
  · rcases h2 with h2 | ⟨rfl, h2⟩
    · exact Or.inl (optLt_trans h1 h2)
    · exact Or.inl h1
  · rcases h2 with h2 | ⟨rfl, h2⟩
    · exact Or.inl h2
    · refine Or.inr ⟨rfl, ?_⟩
      rcases h1 with h1 | ⟨rfl, h1⟩
      · rcases h2 with h2 | ⟨rfl, h2⟩
        · exact Or.inl (optLt_trans h1 h2)
        · exact Or.inl h1
      · rcases h2 with h2 | ⟨rfl, h2⟩
        · exact Or.inl h2
        · exact Or.inr ⟨rfl, optLe_trans h1 h2⟩

theorem tripleLe_total (a b : Option Int × Option Int × Option Int) :
    tripleLe a b = true ∨ tripleLe b a = true := by
  obtain ⟨a1, a2, a3⟩ := a
  obtain ⟨b1, b2, b3⟩ := b
  simp only [tripleLe, Bool.or_eq_true, Bool.and_eq_true, beq_iff_eq]
  rcases optInt_tricho a1 b1 with h | h | h
  · exact Or.inl (Or.inl h)
  · subst h
    rcases optInt_tricho a2 b2 with h | h | h
    · exact Or.inl (Or.inr ⟨rfl, Or.inl h⟩)
    · subst h
      rcases optLe_total a3 b3 with h | h
      · exact Or.inl (Or.inr ⟨rfl, Or.inr ⟨rfl, h⟩⟩)
      · exact Or.inr (Or.inr ⟨rfl, Or.inr ⟨rfl, h⟩⟩)
    · exact Or.inr (Or.inr ⟨rfl, Or.inl h⟩)
  · exact Or.inr (Or.inl h)

theorem fixtureKeyLe_trans (a b c : FixtureRow)
    (h1 : fixtureKeyLe a b = true) (h2 : fixtureKeyLe b c = true) :
    fixtureKeyLe a c = true :=
  tripleLe_trans (fixKey a) (fixKey b) (fixKey c) h1 h2

theorem fixtureKeyLe_total (a b : FixtureRow) :
    fixtureKeyLe a b = true ∨ fixtureKeyLe b a = true :=
  tripleLe_total (fixKey a) (fixKey b)

/-! ### Emission lemmas for the fixtures table -/

theorem ok_bind {ε α β : Type} (a : α) (f : α → Except ε β) :
    (Except.ok a >>= f) = f a := rfl

theorem error_bind {ε α β : Type} (e : ε) (f : α → Except ε β) :
    ((Except.error e : Except ε α) >>= f) = Except.error e := rfl

theorem emitFixtures_ok_length (parse : String → Option Int)
    (lk : List (Int × TeamRec)) (season : String) :
    ∀ (fs : List Fixture) (recs : List FixtureRow),
      emitFixtures parse lk season fs = .ok recs →
      recs.length = 2 * fs.length := by
  intro fs
  induction fs with
  | nil =>
    intro recs h
    simp only [emitFixtures] at h
    cases h
    rfl
  | cons f fs ih =>
    intro recs h
    simp only [emitFixtures, bind, Except.bind] at h
    cases ha : awayRecord parse lk season f with
    | error e => rw [ha] at h; cases h
    | ok a =>
      rw [ha] at h
      cases hh : homeRecord parse lk season f with
      | error e => rw [hh] at h; cases h
      | ok b =>
        rw [hh] at h
        cases hr : emitFixtures parse lk season fs with
        | error e => rw [hr] at h; cases h
        | ok rest =>
          rw [hr] at h
          cases h
          have := ih rest hr
          simp only [List.length_cons, this]
          omega

theorem emitFixtures_ok_mem (parse : String → Option Int)
    (lk : List (Int × TeamRec)) (season : String) :
    ∀ (fs : List Fixture) (recs : List FixtureRow),
      emitFixtures parse lk season fs = .ok recs →
      ∀ f ∈ fs, ∃ ra rh, awayRecord parse lk season f = .ok ra ∧
        homeRecord parse lk season f = .ok rh ∧ ra ∈ recs ∧ rh ∈ recs := by
  intro fs
  induction fs with
  | nil => intro recs _ f hf; cases hf
  | cons g fs ih =>
    intro recs h f hf
    simp only [emitFixtures, bind, Except.bind] at h
    cases ha : awayRecord parse lk season g with
    | error e => rw [ha] at h; cases h
    | ok a =>
      rw [ha] at h
      cases hh : homeRecord parse lk season g with
      | error e => rw [hh] at h; cases h
      | ok b =>
        rw [hh] at h
        cases hr : emitFixtures parse lk season fs with
        | error e => rw [hr] at h; cases h
        | ok rest =>
          rw [hr] at h
          cases h
          rcases List.mem_cons.mp hf with rfl | hf2
          · exact ⟨a, b, ha, hh, List.mem_cons_self _ _,
              List.mem_cons_of_mem _ (List.mem_cons_self _ _)⟩
          · obtain ⟨ra, rh, h1, h2, h3, h4⟩ := ih rest hr f hf2
            exact ⟨ra, rh, h1, h2,
              List.mem_cons_of_mem _ (List.mem_cons_of_mem _ h3),
              List.mem_cons_of_mem _ (List.mem_cons_of_mem _ h4)⟩

theorem awayRecord_ok_fields {parse : String → Option Int}
    {lk : List (Int × TeamRec)} {season : String} {f : Fixture}
    {ra : FixtureRow} (h : awayRecord parse lk season f = .ok ra) :
    ra.team_id = f.team_a ∧ ra.opponent_team_id = f.team_h ∧
    ra.was_home = false ∧
    ra.fixture_difficulty = f.team_a_difficulty.getD 0 ∧
    ra.team_a_score = f.team_a_score ∧ ra.team_h_score = f.team_h_score := by
  simp only [awayRecord, bind, Except.bind] at h
  cases h1 : teamNameE lk f.team_a with
  | error e => rw [h1] at h; cases h
  | ok tn =>
    rw [h1] at h
    cases h2 : teamNameE lk f.team_h with
    | error e => rw [h2] at h; cases h
    | ok opn =>
      rw [h2] at h
      cases h
      exact ⟨rfl, rfl, rfl, rfl, rfl, rfl⟩

theorem homeRecord_ok_fields {parse : String → Option Int}
    {lk : List (Int × TeamRec)} {season : String} {f : Fixture}
    {rh : FixtureRow} (h : homeRecord parse lk season f = .ok rh) :
    rh.team_id = f.team_h ∧ rh.opponent_team_id = f.team_a ∧
    rh.was_home = true ∧
    rh.fixture_difficulty = f.team_h_difficulty.getD 0 ∧
    rh.team_a_score = f.team_a_score ∧ rh.team_h_score = f.team_h_score := by
  simp only [homeRecord, bind, Except.bind] at h
  cases h1 : teamNameE lk f.team_h with
  | error e => rw [h1] at h; cases h
  | ok tn =>
    rw [h1] at h
    cases h2 : teamNameE lk f.team_a with
    | error e => rw [h2] at h; cases h
    | ok opn =>
      rw [h2] at h
      cases h
      exact ⟨rfl, rfl, rfl, rfl, rfl, rfl⟩

/-! ### Annotation lemmas -/

theorem daysRestAux_length :
    ∀ (l : List FixtureRow) (prev : List (Int × Option Int)),
      (daysRestAux prev l).length = l.length := by
  intro l
  induction l with
  | nil => intro prev; rfl
  | cons r rest ih =>
    intro prev
    cases hr : r.team_id <;> simp [daysRestAux, hr, ih]

theorem daysRestAux_map_core :
    ∀ (l : List FixtureRow) (prev : List (Int × Option Int)),
      (daysRestAux prev l).map core = l.map core := by
  intro l
  induction l with
  | nil => intro prev; rfl
  | cons r rest ih =>
    intro prev
    cases hr : r.team_id <;> simp [daysRestAux, hr, ih, core]

theorem annotate_map_core (recs : List FixtureRow) :
    (annotateFixtures recs).map core = (sortLe fixtureKeyLe recs).map core := by
  simp only [annotateFixtures, List.map_map]
  have hcmp : (core ∘ fun r =>
      { r with is_double_gw :=
          isDoubleGW (daysRestAux [] (sortLe fixtureKeyLe recs)) r }) = core := by
    funext r; rfl
  rw [hcmp, daysRestAux_map_core]

theorem annotate_core_perm (recs : List FixtureRow) :
    ((annotateFixtures recs).map core).Perm (recs.map core) := by
  rw [annotate_map_core]
  exact (sortLe_perm fixtureKeyLe recs).map core

theorem annotate_length (recs : List FixtureRow) :
    (annotateFixtures recs).length = recs.length := by
  have h1 := congrArg List.length (annotate_map_core recs)
  simp only [List.length_map] at h1
  rw [h1, (sortLe_perm fixtureKeyLe recs).length_eq]

theorem create_fixtures_ok {parse : String → Option Int} {fd : List Fixture}
    {bs : Bootstrap} {season : String} {rows : List FixtureRow}
    (h : create_fixtures_table parse fd bs season = .ok rows)
    (hne : fd ≠ []) :
    ∃ teams lk recs, bs.teams = some teams ∧ teamsLookupE teams = .ok lk ∧
      emitFixtures parse lk season fd = .ok recs ∧
      rows = annotateFixtures recs := by
  unfold create_fixtures_table at h
  rw [if_neg (by simp [hne])] at h
  cases hT : bs.teams with
  | none =>
    rw [hT, show getKey (none : Option (List TeamRec)) "teams" =
      Except.error "KeyError: teams" from rfl, error_bind] at h
    cases h
  | some teams =>
    rw [hT, show getKey (some teams) "teams" = Except.ok teams from rfl,
      ok_bind] at h
    cases hL : teamsLookupE teams with
    | error e => rw [hL, error_bind] at h; cases h
    | ok lk =>
      rw [hL, ok_bind] at h
      cases hR : emitFixtures parse lk season fd with
      | error e => rw [hR, error_bind] at h; cases h
      | ok recs =>
        rw [hR, ok_bind] at h
        cases h
        exact ⟨teams, lk, recs, rfl, hL, hR, rfl⟩

/-- C2: on a non-empty fixture list, the fixtures table has exactly two
rows per raw fixture: an away-perspective row (`team_id = team_a`,
`was_home = false`, difficulty `team_a_difficulty`) and a home-perspective
row with the ids reversed, both carrying the raw fixture's
`team_a_score`/`team_h_score` unchanged. -/
theorem claim_C2_two_rows_per_fixture (parse : String → Option Int)
    (fd : List Fixture) (bs : Bootstrap) (season : String)
    (rows : List FixtureRow) (hne : fd ≠ [])
    (h : create_fixtures_table parse fd bs season = .ok rows) :
    rows.length = 2 * fd.length ∧
    ∀ f ∈ fd, ∃ ra ∈ rows, ∃ rh ∈ rows,
      ra.was_home = false ∧ ra.team_id = f.team_a ∧
      ra.opponent_team_id = f.team_h ∧
      ra.fixture_difficulty = f.team_a_difficulty.getD 0 ∧
      rh.was_home = true ∧ rh.team_id = f.team_h ∧
      rh.opponent_team_id = f.team_a ∧
      rh.fixture_difficulty = f.team_h_difficulty.getD 0 ∧
      ra.team_a_score = f.team_a_score ∧ ra.team_h_score = f.team_h_score ∧
      rh.team_a_score = f.team_a_score ∧ rh.team_h_score = f.team_h_score := by
  obtain ⟨teams, lk, recs, hT, hL, hR, hrows⟩ := create_fixtures_ok h hne
  subst hrows
  constructor
  · rw [annotate_length]
    exact emitFixtures_ok_length parse lk season fd recs hR
  · intro f hf
    obtain ⟨ra, rh, ha, hh, hmra, hmrh⟩ :=
      emitFixtures_ok_mem parse lk season fd recs hR f hf
    obtain ⟨a1, a2, a3, a4, a5, a6⟩ := awayRecord_ok_fields ha
    obtain ⟨b1, b2, b3, b4, b5, b6⟩ := homeRecord_ok_fields hh
    have hca : core ra ∈ (annotateFixtures recs).map core :=
      (annotate_core_perm recs).mem_iff.mpr (List.mem_map_of_mem core hmra)
    have hcb : core rh ∈ (annotateFixtures recs).map core :=
      (annotate_core_perm recs).mem_iff.mpr (List.mem_map_of_mem core hmrh)
    obtain ⟨ra2, hra2, hea⟩ := List.mem_map.mp hca
    obtain ⟨rh2, hrh2, heb⟩ := List.mem_map.mp hcb
    refine ⟨ra2, hra2, rh2, hrh2, ?_, ?_, ?_, ?_, ?_, ?_, ?_, ?_, ?_, ?_, ?_, ?_⟩
    · exact (congrArg FixtureRow.was_home hea).trans a3
    · exact (congrArg FixtureRow.team_id hea).trans a1
    · exact (congrArg FixtureRow.opponent_team_id hea).trans a2
    · exact (congrArg FixtureRow.fixture_difficulty hea).trans a4
    · exact (congrArg FixtureRow.was_home heb).trans b3
    · exact (congrArg FixtureRow.team_id heb).trans b1
    · exact (congrArg FixtureRow.opponent_team_id heb).trans b2
    · exact (congrArg FixtureRow.fixture_difficulty heb).trans b4
    · exact (congrArg FixtureRow.team_a_score hea).trans a5
    · exact (congrArg FixtureRow.team_h_score hea).trans a6
    · exact (congrArg FixtureRow.team_a_score heb).trans b5
    · exact (congrArg FixtureRow.team_h_score heb).trans b6

/-! ### Order, count and rest-day preservation through the annotations -/

theorem daysRestAux_map_tkOf :
    ∀ (l : List FixtureRow) (prev : List (Int × Option Int)),
      (daysRestAux prev l).map tkOf = l.map tkOf := by
  intro l
  induction l with
  | nil => intro prev; rfl
  | cons r rest ih =>
    intro prev
    cases hr : r.team_id <;> simp [daysRestAux, hr, ih, tkOf]

theorem daysRestAux_map_fixKey :
    ∀ (l : List FixtureRow) (prev : List (Int × Option Int)),
      (daysRestAux prev l).map fixKey = l.map fixKey := by
  intro l
  induction l with
  | nil => intro prev; rfl
  | cons r rest ih =>
    intro prev
    cases hr : r.team_id <;> simp [daysRestAux, hr, ih, fixKey]

theorem annotate_map_fixKey (recs : List FixtureRow) :
    (annotateFixtures recs).map fixKey =
      (sortLe fixtureKeyLe recs).map fixKey := by
  simp only [annotateFixtures, List.map_map]
  have hcmp : (fixKey ∘ fun r =>
      { r with is_double_gw :=
          isDoubleGW (daysRestAux [] (sortLe fixtureKeyLe recs)) r }) = fixKey := by
    funext r; rfl
  rw [hcmp, daysRestAux_map_fixKey]

theorem annotate_map_tkOf (recs : List FixtureRow) :
    (annotateFixtures recs).map tkOf =
      (sortLe fixtureKeyLe recs).map tkOf := by
  simp only [annotateFixtures, List.map_map]
  have hcmp : (tkOf ∘ fun r =>
      { r with is_double_gw :=
          isDoubleGW (daysRestAux [] (sortLe fixtureKeyLe recs)) r }) = tkOf := by
    funext r; rfl
  rw [hcmp, daysRestAux_map_tkOf]

theorem annotate_sorted (recs : List FixtureRow) :
    (annotateFixtures recs).Pairwise (fun a b => fixtureKeyLe a b = true) := by
  have hs : (sortLe fixtureKeyLe recs).Pairwise
      (fun a b => fixtureKeyLe a b = true) :=
    pairwise_sortLe fixtureKeyLe_trans fixtureKeyLe_total recs
  have h1 : ((sortLe fixtureKeyLe recs).map fixKey).Pairwise
      (fun a b => tripleLe a b = true) := List.pairwise_map.mpr hs
  have h2 : ((annotateFixtures recs).map fixKey).Pairwise
      (fun a b => tripleLe a b = true) := by
    rw [annotate_map_fixKey]; exact h1
  exact List.pairwise_map.mp h2

theorem daysRestAux_countP (t g : Int) :
    ∀ (l : List FixtureRow) (prev : List (Int × Option Int)),
      (daysRestAux prev l).countP
          (fun s => s.team_id == some t && s.gameweek == some g) =
        l.countP (fun s => s.team_id == some t && s.gameweek == some g) := by
  intro l
  induction l with
  | nil => intro prev; rfl
  | cons r rest ih =>
    intro prev
    cases hr : r.team_id <;> simp [daysRestAux, hr, List.countP_cons, ih]

theorem annotate_countP (t g : Int) (recs : List FixtureRow) :
    (annotateFixtures recs).countP
        (fun s => s.team_id == some t && s.gameweek == some g) =
      (daysRestAux [] (sortLe fixtureKeyLe recs)).countP
        (fun s => s.team_id == some t && s.gameweek == some g) := by
  simp only [annotateFixtures]
  rw [List.countP_map]
  rfl

/-- The empty-input case of the fixtures builder. -/
theorem create_fixtures_nil {parse : String → Option Int} {bs : Bootstrap}
    {season : String} {rows : List FixtureRow}
    (h : create_fixtures_table parse [] bs season = .ok rows) : rows = [] := by
  unfold create_fixtures_table at h
  rw [if_pos (show ([] : List Fixture).isEmpty = true by rfl)] at h
  cases h
  rfl

/-- C10: the returned fixtures table is ordered ascending by
`(team_id, gameweek, parsed kickoff_time)` — nulls last within each key —
as a side effect of the rest-day computation's sort, so the two
perspective rows of one raw fixture are in general not adjacent. -/
theorem claim_C10_table_sorted (parse : String → Option Int)
    (fd : List Fixture) (bs : Bootstrap) (season : String)
    (rows : List FixtureRow)
    (h : create_fixtures_table parse fd bs season = .ok rows) :
    rows.Pairwise (fun a b => fixtureKeyLe a b = true) := by
  by_cases hne : fd = []
  · subst hne
    rw [create_fixtures_nil h]
    exact List.Pairwise.nil
  · obtain ⟨teams, lk, recs, hT, hL, hR, hrows⟩ := create_fixtures_ok h hne
    subst hrows
    exact annotate_sorted recs

/-- C10, witness: the sortedness at the three-fixture demo input, whose
table interleaves the two teams' perspective rows. -/
theorem claim_C10_table_sorted_witness :
    rowsMulti.Pairwise (fun a b => fixtureKeyLe a b = true) :=
  claim_C10_table_sorted parseDemo fxMulti bsDemo "2024-25" rowsMulti rfl

/-- C6: a fixtures-table row with a present `(team_id, gameweek)` pair is
flagged `is_double_gw` exactly when more than one row of the table carries
that pair (rows with a null component are never flagged: pandas `groupby`
creates no group for them). -/
theorem claim_C6_double_gw (parse : String → Option Int)
    (fd : List Fixture) (bs : Bootstrap) (season : String)
    (rows : List FixtureRow)
    (h : create_fixtures_table parse fd bs season = .ok rows) :
    ∀ r ∈ rows, ∀ t g, r.team_id = some t → r.gameweek = some g →
      (r.is_double_gw = true ↔
        1 < rows.countP
          (fun s => s.team_id == some t && s.gameweek == some g)) := by
  by_cases hne : fd = []
  · subst hne
    rw [create_fixtures_nil h]
    intro r hr
    cases hr
  · obtain ⟨teams, lk, recs, hT, hL, hR, hrows⟩ := create_fixtures_ok h hne
    subst hrows
    intro r hr t g ht hg
    rw [annotate_countP t g recs]
    simp only [annotateFixtures] at hr
    obtain ⟨r0, hr0, rfl⟩ := List.mem_map.mp hr
    have ht0 : r0.team_id = some t := ht
    have hg0 : r0.gameweek = some g := hg
    simp only [isDoubleGW, ht0, hg0]
    exact decide_eq_true_iff

/-- C6, witness: the double-gameweek flag at the first row of the demo
fixtures table (team 1 has two rows in gameweek 1 and one in gameweek 2). -/
theorem claim_C6_double_gw_witness :
    rowM0.is_double_gw = true ↔
      1 < rowsMulti.countP
        (fun s => s.team_id == some 1 && s.gameweek == some 1) :=
  claim_C6_double_gw parseDemo fxMulti bsDemo "2024-25" rowsMulti rfl rowM0
    (List.mem_of_elem_eq_true (by with_unfolding_all rfl)) 1 1
    (by with_unfolding_all rfl) (by with_unfolding_all rfl)

/-! ### Rest-day correspondence -/

theorem alookup_cons (tid : Int) (v : Option Int)
    (prev : List (Int × Option Int)) (t : Int) :
    alookup ((tid, v) :: prev) t =
      if (tid == t) then some v else alookup prev t := by
  simp only [alookup, List.find?_cons]
  cases h : (tid == t) <;> simp [h]

theorem daysRestSpecFrom_cons (prev : List (Int × Option Int))
    (r : FixtureRow) (pre : List FixtureRow) (s : FixtureRow) :
    daysRestSpecFrom prev (r :: pre) s =
      daysRestSpecFrom
        (match r.team_id with
          | none => prev
          | some tid => (tid, r.kickoff_time) :: prev) pre s := by
  cases hs : s.team_id with
  | none => simp [daysRestSpecFrom, hs]
  | some t =>
    simp only [daysRestSpecFrom, hs, List.map_cons, lastKickFrom,
      List.foldl_cons]
    congr 2
    cases hr : r.team_id with
    | none => simp [tkOf, hr]
    | some tid =>
      simp only [tkOf, hr, alookup_cons,
        show ((some tid : Option Int) == some t) = (tid == t) from rfl]

theorem daysRestSpecFrom_nil (pre : List FixtureRow) (r : FixtureRow) :
    daysRestSpecFrom [] pre r = daysRestSpec pre r := by
  cases hr : r.team_id <;> simp [daysRestSpecFrom, daysRestSpec, hr, alookup]

theorem daysRestAux_getElem? :
    ∀ (l : List FixtureRow) (prev : List (Int × Option Int)) (i : Nat),
      (daysRestAux prev l)[i]? =
        (l[i]?).map
          (fun r => { r with days_rest := daysRestSpecFrom prev (l.take i) r }) := by
  intro l
  induction l with
  | nil => intro prev i; simp [daysRestAux]
  | cons r rest ih =>
    intro prev i
    cases i with
    | zero =>
      cases hr : r.team_id with
      | none =>
        simp only [daysRestAux, hr, List.getElem?_cons_zero, List.take_zero]
        simp [daysRestSpecFrom, hr]
      | some tid =>
        simp only [daysRestAux, hr, List.getElem?_cons_zero, List.take_zero]
        simp [daysRestSpecFrom, hr, lastKickFrom]
    | succ i =>
      cases hr : r.team_id with
      | none =>
        simp only [daysRestAux, hr, List.getElem?_cons_succ,
          List.take_succ_cons]
        rw [ih]
        cases hx : rest[i]? with
        | none => rfl
        | some s =>
          have hXY : daysRestSpecFrom prev (rest.take i) s =
              daysRestSpecFrom prev (r :: rest.take i) s := by
            rw [daysRestSpecFrom_cons, hr]
          simp [hXY]
      | some tid =>
        simp only [daysRestAux, hr, List.getElem?_cons_succ,
          List.take_succ_cons]
        rw [ih]
        cases hx : rest[i]? with
        | none => rfl
        | some s =>
          have hXY : daysRestSpecFrom ((tid, r.kickoff_time) :: prev)
                (rest.take i) s =
              daysRestSpecFrom prev (r :: rest.take i) s := by
            rw [daysRestSpecFrom_cons, hr]
          simp [hXY]

/-- C5: in the produced fixtures table, every row's `days_rest` equals the
elapsed days (seconds divided by 86400) between its parsed kickoff and the
kickoff of the same team's immediately preceding row in the table, and is
`0` for a team's first row or when either timestamp (or the team id) is
null; within a team the table rows are ordered by gameweek then parsed
kickoff ascending. -/
theorem claim_C5_days_rest (parse : String → Option Int) (fd : List Fixture)
    (bs : Bootstrap) (season : String) (rows : List FixtureRow)
    (h : create_fixtures_table parse fd bs season = .ok rows) :
    (∀ (i : Nat) (r : FixtureRow), rows[i]? = some r →
      r.days_rest = daysRestSpec (rows.take i) r) ∧
    rows.Pairwise (fun a b => a.team_id = b.team_id → fixtureKeyLe a b = true) := by
  by_cases hne : fd = []
  · subst hne
    rw [create_fixtures_nil h]
    exact ⟨fun i r hr => absurd hr (by simp), List.Pairwise.nil⟩
  · obtain ⟨teams, lk, recs, hT, hL, hR, hrows⟩ := create_fixtures_ok h hne
    subst hrows
    constructor
    · intro i r hr
      simp only [annotateFixtures] at hr
      rw [List.getElem?_map, daysRestAux_getElem?] at hr
      cases hx : (sortLe fixtureKeyLe recs)[i]? with
      | none => rw [hx] at hr; simp at hr
      | some r0 =>
        rw [hx] at hr
        simp only [Option.map_some'] at hr
        have hr' := hr
        injection hr' with hreq
        subst hreq
        have htk : ((annotateFixtures recs).take i).map tkOf =
            ((sortLe fixtureKeyLe recs).take i).map tkOf := by
          rw [List.map_take, List.map_take, annotate_map_tkOf]
        cases hr0 : r0.team_id with
        | none =>
          simp [daysRestSpec, daysRestSpecFrom, hr0]
        | some tid =>
          simp only [daysRestSpec, daysRestSpecFrom, hr0, alookup,
            List.find?_nil, Option.map_none', htk]
    · have hp := annotate_sorted recs
      refine hp.imp ?_
      intro a b hab _
      exact hab

/-- C5, witness: the rest-day property at the three-fixture demo input
(team 1 rests 1 day, then 6 days). -/
theorem claim_C5_days_rest_witness :
    (∀ (i : Nat) (r : FixtureRow), rowsMulti[i]? = some r →
      r.days_rest = daysRestSpec (rowsMulti.take i) r) ∧
    rowsMulti.Pairwise
      (fun a b => a.team_id = b.team_id → fixtureKeyLe a b = true) :=
  claim_C5_days_rest parseDemo fxMulti bsDemo "2024-25" rowsMulti rfl

/-- C2, witness: the two-rows-per-fixture property evaluated on the
three-fixture demo input. -/
theorem claim_C2_witness :
    rowsMulti.length = 2 * fxMulti.length ∧
    ∀ f ∈ fxMulti, ∃ ra ∈ rowsMulti, ∃ rh ∈ rowsMulti,
      ra.was_home = false ∧ ra.team_id = f.team_a ∧
      ra.opponent_team_id = f.team_h ∧
      ra.fixture_difficulty = f.team_a_difficulty.getD 0 ∧
      rh.was_home = true ∧ rh.team_id = f.team_h ∧
      rh.opponent_team_id = f.team_a ∧
      rh.fixture_difficulty = f.team_h_difficulty.getD 0 ∧
      ra.team_a_score = f.team_a_score ∧ ra.team_h_score = f.team_h_score ∧
      rh.team_a_score = f.team_a_score ∧ rh.team_h_score = f.team_h_score :=
  claim_C2_two_rows_per_fixture parseDemo fxMulti bsDemo "2024-25" rowsMulti
    (by simp [fxMulti]) rfl

/-! ### Team aggregation -/

/-- C7: every aggregated team row reduces its group — the player rows
sharing its six-field key — with sum for goals, assists, cards, points
and bps, and with max for clean sheets and goals conceded; every player
row with a complete key is covered by exactly one group (the group keys
are distinct). -/
theorem claim_C7_group_and_reduce (ps : List PlayerRow) :
    (∀ a ∈ aggregateTeamStats ps,
      a.goals_scored = ((groupRows ps a.key).map (fun r => r.goals_scored)).sum ∧
      a.assists = ((groupRows ps a.key).map (fun r => r.assists)).sum ∧
      a.clean_sheets = listMax ((groupRows ps a.key).map (fun r => r.clean_sheets)) ∧
      a.goals_conceded = listMax ((groupRows ps a.key).map (fun r => r.goals_conceded)) ∧
      a.yellow_cards = ((groupRows ps a.key).map (fun r => r.yellow_cards)).sum ∧
      a.red_cards = ((groupRows ps a.key).map (fun r => r.red_cards)).sum ∧
      a.total_points = ((groupRows ps a.key).map (fun r => r.total_points)).sum ∧
      a.bps = ((groupRows ps a.key).map (fun r => r.bps)).sum) ∧
    (∀ r ∈ ps, ∀ k, keyOf r = some k →
      ∃ a ∈ aggregateTeamStats ps, a.key = k) ∧
    ((aggregateTeamStats ps).map (fun a => a.key)).Nodup := by
  refine ⟨?_, ?_, ?_⟩
  · intro a ha
    obtain ⟨k, hk, rfl⟩ := List.mem_map.mp ha
    exact ⟨rfl, rfl, rfl, rfl, rfl, rfl, rfl, rfl⟩
  · intro r hr k hk
    have h1 : k ∈ ps.filterMap keyOf := List.mem_filterMap.mpr ⟨r, hr, hk⟩
    have h2 : k ∈ (ps.filterMap keyOf).dedup := List.mem_dedup.mpr h1
    have h3 : k ∈ sortLe teamKeyLe ((ps.filterMap keyOf).dedup) :=
      (sortLe_perm teamKeyLe _).mem_iff.mpr h2
    exact ⟨aggRow ps k, List.mem_map_of_mem (aggRow ps) h3, rfl⟩
  · have h1 : ((aggregateTeamStats ps).map (fun a => a.key)) =
        sortLe teamKeyLe ((ps.filterMap keyOf).dedup) := by
      simp only [aggregateTeamStats, List.map_map]
      have : ((fun a => a.key) ∘ aggRow ps) = id := by funext k; rfl
      rw [this, List.map_id]
    rw [h1]
    exact ((sortLe_perm teamKeyLe _).symm).nodup (List.nodup_dedup _)

/-- C7, witness: the aggregation property at the two-player demo group. -/
theorem claim_C7_group_and_reduce_witness :
    (∀ a ∈ aggregateTeamStats psC1,
      a.goals_scored = ((groupRows psC1 a.key).map (fun r => r.goals_scored)).sum ∧
      a.assists = ((groupRows psC1 a.key).map (fun r => r.assists)).sum ∧
      a.clean_sheets = listMax ((groupRows psC1 a.key).map (fun r => r.clean_sheets)) ∧
      a.goals_conceded = listMax ((groupRows psC1 a.key).map (fun r => r.goals_conceded)) ∧
      a.yellow_cards = ((groupRows psC1 a.key).map (fun r => r.yellow_cards)).sum ∧
      a.red_cards = ((groupRows psC1 a.key).map (fun r => r.red_cards)).sum ∧
      a.total_points = ((groupRows psC1 a.key).map (fun r => r.total_points)).sum ∧
      a.bps = ((groupRows psC1 a.key).map (fun r => r.bps)).sum) ∧
    (∀ r ∈ psC1, ∀ k, keyOf r = some k →
      ∃ a ∈ aggregateTeamStats psC1, a.key = k) ∧
    ((aggregateTeamStats psC1).map (fun a => a.key)).Nodup :=
  claim_C7_group_and_reduce psC1

/-! ### Player table emission -/

theorem create_player_ok {bs : Bootstrap} {apd : List PlayerEntry}
    {season : String} {rows : List PlayerRow}
    (h : create_player_match_stats_raw bs apd season = .ok rows) :
    ∃ elems lk records, bs.elements = some elems ∧
      playersLookupE elems = .ok lk ∧
      emitPlayers lk season apd = .ok records ∧ rows.Perm records := by
  unfold create_player_match_stats_raw at h
  cases hE : bs.elements with
  | none =>
    rw [hE, show getKey (none : Option (List BElem)) "elements" =
      Except.error "KeyError: elements" from rfl, error_bind] at h
    cases h
  | some elems =>
    rw [hE, show getKey (some elems) "elements" = Except.ok elems from rfl,
      ok_bind] at h
    cases hL : playersLookupE elems with
    | error e => rw [hL, error_bind] at h; cases h
    | ok lk =>
      rw [hL, ok_bind] at h
      cases hR : emitPlayers lk season apd with
      | error e => rw [hR, error_bind] at h; cases h
      | ok records =>
        rw [hR, ok_bind] at h
        by_cases hc : records.isEmpty
        · rw [if_pos hc] at h
          injection h with h2
          refine ⟨elems, lk, records, rfl, hL, hR, ?_⟩
          rw [← h2]
        · rw [if_neg hc] at h
          injection h with h2
          refine ⟨elems, lk, records, rfl, hL, hR, ?_⟩
          rw [← h2]
          exact sortLe_perm _ _

theorem emitPlayers_ok_mem (lk : List (Int × BElem)) (season : String) :
    ∀ (apd : List PlayerEntry) (records : List PlayerRow),
      emitPlayers lk season apd = .ok records →
      ∀ r ∈ records, ∃ pe ∈ apd, ∃ pid pd m, pe.player_id = some pid ∧
        pe.data = some pd ∧ m ∈ pd.history.getD [] ∧
        r = mkPlayerRow lk season pid m := by
  intro apd
  induction apd with
  | nil =>
    intro records h r hr
    simp only [emitPlayers] at h
    cases h
    cases hr
  | cons pe rest ih =>
    intro records h r hr
    simp only [emitPlayers] at h
    cases hpid : pe.player_id with
    | none =>
      rw [hpid, show getKey (none : Option Int) "player_id" =
        Except.error "KeyError: player_id" from rfl, error_bind] at h
      cases h
    | some pid =>
      rw [hpid, show getKey (some pid) "player_id" = Except.ok pid from rfl,
        ok_bind] at h
      cases hpd : pe.data with
      | none =>
        rw [hpd, show getKey (none : Option PlayerData) "data" =
          Except.error "KeyError: data" from rfl, error_bind] at h
        cases h
      | some pd =>
        rw [hpd, show getKey (some pd) "data" = Except.ok pd from rfl,
          ok_bind] at h
        cases hrs : emitPlayers lk season rest with
        | error e => rw [hrs, error_bind] at h; cases h
        | ok rs =>
          rw [hrs, ok_bind] at h
          cases h
          rcases List.mem_append.mp hr with hin | hin
          · obtain ⟨m, hm, rfl⟩ := List.mem_map.mp hin
            exact ⟨pe, List.mem_cons_self _ _, pid, pd, m, hpid, hpd, hm, rfl⟩
          · obtain ⟨pe2, hpe2, rest_ex⟩ := ih rs hrs r hin
            exact ⟨pe2, List.mem_cons_of_mem _ hpe2, rest_ex⟩

theorem alookup_isSome {α : Type} (l : List (Int × α)) (i : Int) :
    (alookup l i).isSome = l.any (fun q => q.1 == i) := by
  induction l with
  | nil => rfl
  | cons q l ih =>
    simp only [alookup, List.find?_cons, List.any_cons]
    cases hq : (q.1 == i) <;> simp_all [alookup]

theorem playersLookupE_isSome :
    ∀ (elems : List BElem) (lk : List (Int × BElem)),
      playersLookupE elems = .ok lk → ∀ (i : Int),
      (dictLookup lk i).isSome = elems.any (fun p => p.id == some i) := by
  intro elems
  induction elems with
  | nil =>
    intro lk h i
    simp only [playersLookupE] at h
    cases h
    rfl
  | cons p ps ih =>
    intro lk h i
    cases hid : p.id with
    | none => simp only [playersLookupE, hid] at h; cases h
    | some j =>
      simp only [playersLookupE, hid] at h
      cases hps : playersLookupE ps with
      | error e => rw [hps] at h; cases h
      | ok lk0 =>
        rw [hps, show Except.map (fun l => (j, p) :: l)
          (Except.ok lk0 : Except String (List (Int × BElem))) =
          Except.ok ((j, p) :: lk0) from rfl] at h
        cases h
        simp only [dictLookup, List.reverse_cons, List.any_cons, hid]
        rw [show (alookup (lk0.reverse ++ [(j, p)]) i).isSome =
              (lk0.reverse ++ [(j, p)]).any (fun q => q.1 == i)
            from alookup_isSome _ i]
        have h0 := ih lk0 hps i
        simp only [dictLookup] at h0
        rw [alookup_isSome] at h0
        simp only [List.any_append, List.any_cons, List.any_nil, h0,
          show ((some j : Option Int) == some i) = (j == i) from rfl]
        cases (j == i) <;> cases (List.any ps fun p => p.id == some i) <;> simp

/-- C8: every emitted player row comes from one history entry of one
payload; its numeric fields default to 0 (rationals to 0) when the entry
lacks them, `was_home` defaults to false, the identifying fields are
copied, and `element_type`/`team_id` are present on the row exactly when
the row's player id occurs in the bootstrap element list. -/
theorem claim_C8_row_defaults (bs : Bootstrap) (apd : List PlayerEntry)
    (season : String) (rows : List PlayerRow) (elems : List BElem)
    (h : create_player_match_stats_raw bs apd season = .ok rows)
    (hE : bs.elements = some elems) :
    ∀ r ∈ rows, ∃ pe ∈ apd, ∃ pid pd m, pe.player_id = some pid ∧
      pe.data = some pd ∧ m ∈ pd.history.getD [] ∧
      r.player_id = pid ∧ r.season = season ∧ r.gameweek = m.round ∧
      r.match_id = m.id ∧ r.opponent_team_id = m.opponent_team ∧
      r.was_home = m.was_home.getD false ∧
      r.minutes = m.minutes.getD 0 ∧ r.total_points = m.total_points.getD 0 ∧
      r.goals_scored = m.goals_scored.getD 0 ∧ r.assists = m.assists.getD 0 ∧
      r.clean_sheets = m.clean_sheets.getD 0 ∧
      r.goals_conceded = m.goals_conceded.getD 0 ∧
      r.own_goals = m.own_goals.getD 0 ∧
      r.penalties_saved = m.penalties_saved.getD 0 ∧
      r.penalties_missed = m.penalties_missed.getD 0 ∧
      r.yellow_cards = m.yellow_cards.getD 0 ∧
      r.red_cards = m.red_cards.getD 0 ∧ r.saves = m.saves.getD 0 ∧
      r.bonus = m.bonus.getD 0 ∧ r.bps = m.bps.getD 0 ∧
      r.influence = m.influence.getD 0 ∧ r.creativity = m.creativity.getD 0 ∧
      r.threat = m.threat.getD 0 ∧ r.ict_index = m.ict_index.getD 0 ∧
      r.value = m.value.getD 0 ∧
      r.transfers_balance = m.transfers_balance.getD 0 ∧
      r.selected = m.selected.getD 0 ∧
      r.transfers_in = m.transfers_in.getD 0 ∧
      r.transfers_out = m.transfers_out.getD 0 ∧
      r.element_type.isSome = elems.any (fun p => p.id == some pid) ∧
      r.team_id.isSome = elems.any (fun p => p.id == some pid) := by
  obtain ⟨elems2, lk, records, hE2, hL, hR, hperm⟩ := create_player_ok h
  rw [hE] at hE2
  injection hE2 with hE3
  subst hE3
  intro r hr
  have hrec : r ∈ records := hperm.mem_iff.mp hr
  obtain ⟨pe, hpe, pid, pd, m, hpid, hpd, hm, rfl⟩ :=
    emitPlayers_ok_mem lk season apd records hR r hrec
  refine ⟨pe, hpe, pid, pd, m, hpid, hpd, hm, rfl, rfl, rfl, rfl, rfl, rfl,
    rfl, rfl, rfl, rfl, rfl, rfl, rfl, rfl, rfl, rfl, rfl, rfl, rfl, rfl,
    rfl, rfl, rfl, rfl, rfl, rfl, rfl, rfl, rfl, ?_, ?_⟩
  · show ((dictLookup lk pid).map (fun p => p.element_type)).isSome =
      elems.any (fun p => p.id == some pid)
    rw [Option.isSome_map']
    exact playersLookupE_isSome elems lk hL pid
  · show ((dictLookup lk pid).map (fun p => p.team)).isSome =
      elems.any (fun p => p.id == some pid)
    rw [Option.isSome_map']
    exact playersLookupE_isSome elems lk hL pid

/-- C8, witness: the defaults at the single row of the demo player table,
whose history entry lacks `assists`, `bonus` and all float fields. -/
theorem claim_C8_row_defaults_witness :
    ∃ pe ∈ apdDemo, ∃ pid pd m,
      pe.player_id = some pid ∧
      pe.data = some pd ∧ m ∈ pd.history.getD [] ∧
      rowP0.player_id = pid ∧ rowP0.season = "2024-25" ∧
      rowP0.gameweek = m.round ∧
      rowP0.match_id = m.id ∧ rowP0.opponent_team_id = m.opponent_team ∧
      rowP0.was_home = m.was_home.getD false ∧
      rowP0.minutes = m.minutes.getD 0 ∧
      rowP0.total_points = m.total_points.getD 0 ∧
      rowP0.goals_scored = m.goals_scored.getD 0 ∧
      rowP0.assists = m.assists.getD 0 ∧
      rowP0.clean_sheets = m.clean_sheets.getD 0 ∧
      rowP0.goals_conceded = m.goals_conceded.getD 0 ∧
      rowP0.own_goals = m.own_goals.getD 0 ∧
      rowP0.penalties_saved = m.penalties_saved.getD 0 ∧
      rowP0.penalties_missed = m.penalties_missed.getD 0 ∧
      rowP0.yellow_cards = m.yellow_cards.getD 0 ∧
      rowP0.red_cards = m.red_cards.getD 0 ∧
      rowP0.saves = m.saves.getD 0 ∧
      rowP0.bonus = m.bonus.getD 0 ∧ rowP0.bps = m.bps.getD 0 ∧
      rowP0.influence = m.influence.getD 0 ∧
      rowP0.creativity = m.creativity.getD 0 ∧
      rowP0.threat = m.threat.getD 0 ∧
      rowP0.ict_index = m.ict_index.getD 0 ∧
      rowP0.value = m.value.getD 0 ∧
      rowP0.transfers_balance = m.transfers_balance.getD 0 ∧
      rowP0.selected = m.selected.getD 0 ∧
      rowP0.transfers_in = m.transfers_in.getD 0 ∧
      rowP0.transfers_out = m.transfers_out.getD 0 ∧
      rowP0.element_type.isSome = elemsDemo.any (fun p => p.id == some pid) ∧
      rowP0.team_id.isSome = elemsDemo.any (fun p => p.id == some pid) :=
  claim_C8_row_defaults bsDemo apdDemo "2024-25" rowsPlayerDemo elemsDemo
    rfl rfl rowP0 (List.mem_of_elem_eq_true (by with_unfolding_all rfl))

/-! ### Builder totality on well-formed envelopes -/

theorem playersLookupE_total :
    ∀ (elems : List BElem), (∀ p ∈ elems, p.id.isSome) →
      ∃ lk, playersLookupE elems = .ok lk := by
  intro elems
  induction elems with
  | nil => intro _; exact ⟨[], rfl⟩
  | cons p ps ih =>
    intro hs
    obtain ⟨lk0, h0⟩ := ih (fun q hq => hs q (List.mem_cons_of_mem _ hq))
    have hp := hs p (List.mem_cons_self _ _)
    cases hid : p.id with
    | none => rw [hid] at hp; cases hp
    | some j =>
      exact ⟨(j, p) :: lk0, by simp [playersLookupE, hid, h0, Except.map]⟩

theorem teamsLookupE_total :
    ∀ (teams : List TeamRec), (∀ t ∈ teams, t.id.isSome) →
      ∃ lk, teamsLookupE teams = .ok lk := by
  intro teams
  induction teams with
  | nil => intro _; exact ⟨[], rfl⟩
  | cons t ts ih =>
    intro hs
    obtain ⟨lk0, h0⟩ := ih (fun q hq => hs q (List.mem_cons_of_mem _ hq))
    have ht := hs t (List.mem_cons_self _ _)
    cases hid : t.id with
    | none => rw [hid] at ht; cases ht
    | some j =>
      exact ⟨(j, t) :: lk0, by simp [teamsLookupE, hid, h0, Except.map]⟩

theorem teamsLookupE_mem :
    ∀ (teams : List TeamRec) (lk : List (Int × TeamRec)),
      teamsLookupE teams = .ok lk → ∀ q ∈ lk, q.2 ∈ teams := by
  intro teams
  induction teams with
  | nil =>
    intro lk h q hq
    simp only [teamsLookupE] at h
    cases h
    cases hq
  | cons t ts ih =>
    intro lk h q hq
    cases hid : t.id with
    | none => simp only [teamsLookupE, hid] at h; cases h
    | some j =>
      simp only [teamsLookupE, hid] at h
      cases hts : teamsLookupE ts with
      | error e => rw [hts] at h; cases h
      | ok lk0 =>
        rw [hts, show Except.map (fun l => (j, t) :: l)
          (Except.ok lk0 : Except String (List (Int × TeamRec))) =
          Except.ok ((j, t) :: lk0) from rfl] at h
        cases h
        rcases List.mem_cons.mp hq with rfl | hq2
        · exact List.mem_cons_self _ _
        · exact List.mem_cons_of_mem _ (ih lk0 hts q hq2)

theorem alookup_mem {α : Type} (l : List (Int × α)) (k : Int) (v : α)
    (h : alookup l k = some v) : ∃ q ∈ l, q.2 = v := by
  simp only [alookup] at h
  cases hf : l.find? (fun p => p.1 == k) with
  | none => rw [hf] at h; cases h
  | some q =>
    rw [hf] at h
    injection h with h2
    exact ⟨q, List.mem_of_find?_eq_some hf, h2⟩

theorem teamNameE_total (lk : List (Int × TeamRec)) (teams : List TeamRec)
    (hmem : ∀ q ∈ lk, q.2 ∈ teams)
    (hname : ∀ t ∈ teams, t.name.isSome) (tid : Option Int) :
    ∃ v, teamNameE lk tid = .ok v := by
  cases hb : tid.bind (dictLookup lk) with
  | none => exact ⟨none, by simp [teamNameE, hb]⟩
  | some t =>
    have ht : t ∈ teams := by
      cases tid with
      | none => cases hb
      | some i =>
        simp only [Option.bind] at hb
        obtain ⟨q, hq, hq2⟩ := alookup_mem _ i t hb
        exact hq2 ▸ hmem q (List.mem_reverse.mp hq)
    have hn := hname t ht
    cases hin : t.name with
    | none => rw [hin] at hn; cases hn
    | some n => exact ⟨some n, by simp [teamNameE, hb, hin]⟩

theorem emitFixtures_total (parse : String → Option Int)
    (lk : List (Int × TeamRec)) (teams : List TeamRec) (season : String)
    (hmem : ∀ q ∈ lk, q.2 ∈ teams)
    (hname : ∀ t ∈ teams, t.name.isSome) :
    ∀ (fs : List Fixture), ∃ recs,
      emitFixtures parse lk season fs = .ok recs := by
  intro fs
  induction fs with
  | nil => exact ⟨[], rfl⟩
  | cons f fs ih =>
    obtain ⟨rest, hrest⟩ := ih
    obtain ⟨tn, htn⟩ := teamNameE_total lk teams hmem hname f.team_a
    obtain ⟨opn, hopn⟩ := teamNameE_total lk teams hmem hname f.team_h
    obtain ⟨a, ha⟩ : ∃ a, awayRecord parse lk season f = .ok a := by
      simp only [awayRecord, htn, ok_bind, hopn]
      exact ⟨_, rfl⟩
    obtain ⟨b, hb⟩ : ∃ b, homeRecord parse lk season f = .ok b := by
      simp only [homeRecord, htn, ok_bind, hopn]
      exact ⟨_, rfl⟩
    exact ⟨a :: b :: rest, by
      simp only [emitFixtures, ha, hb, hrest, ok_bind]⟩

theorem emitPlayers_total (lk : List (Int × BElem)) (season : String) :
    ∀ (apd : List PlayerEntry),
      (∀ pe ∈ apd, pe.player_id.isSome ∧ pe.data.isSome) →
      ∃ records, emitPlayers lk season apd = .ok records := by
  intro apd
  induction apd with
  | nil => intro _; exact ⟨[], rfl⟩
  | cons pe rest ih =>
    intro hs
    obtain ⟨rs, hrs⟩ := ih (fun q hq => hs q (List.mem_cons_of_mem _ hq))
    obtain ⟨h1, h2⟩ := hs pe (List.mem_cons_self _ _)
    cases hpid : pe.player_id with
    | none => rw [hpid] at h1; cases h1
    | some pid =>
      cases hpd : pe.data with
      | none => rw [hpd] at h2; cases h2
      | some pd =>
        exact ⟨(pd.history.getD []).map (mkPlayerRow lk season pid) ++ rs, by
          simp only [emitPlayers, hpid, hpd, getKey, hrs, ok_bind]⟩

theorem teamsNameLookupE_total :
    ∀ (teams : List TeamRec),
      (∀ t ∈ teams, t.id.isSome ∧ t.name.isSome) →
      ∃ nlk, teamsNameLookupE teams = .ok nlk := by
  intro teams
  induction teams with
  | nil => intro _; exact ⟨[], rfl⟩
  | cons t ts ih =>
    intro hs
    obtain ⟨nlk0, h0⟩ := ih (fun q hq => hs q (List.mem_cons_of_mem _ hq))
    obtain ⟨h1, h2⟩ := hs t (List.mem_cons_self _ _)
    cases hid : t.id with
    | none => rw [hid] at h1; cases h1
    | some j =>
      cases hin : t.name with
      | none => rw [hin] at h2; cases h2
      | some n =>
        exact ⟨(j, n) :: nlk0, by
          simp [teamsNameLookupE, hid, hin, h0, Except.map]⟩

/-- The missing-column error of the team aggregator: a non-empty player
table in which no row carries `team_id` (as produced when every player is
absent from the bootstrap lookup) has no `team_id` column, so the
`groupby` raises `KeyError` before anything else runs. -/
theorem create_team_match_stats_missing_column (ps : List PlayerRow)
    (fx : List FixtureRow) (bs : Bootstrap) (hne : ¬ ps.isEmpty)
    (hall : ∀ r ∈ ps, r.team_id = none) :
    create_team_match_stats ps fx bs = .error "KeyError: team_id" := by
  unfold create_team_match_stats
  rw [if_neg hne, if_pos]
  rw [List.all_eq_true]
  intro r hr
  rw [hall r hr]
  rfl

/-- C4, amended: the builders tolerate absent or malformed fields of
history entries and fixture records (every such access substitutes a
default), but the fields they read by direct subscript must be present:
given a bootstrap with `elements` and `teams` keys, ids on every element,
ids and names on every team, `player_id`/`data` on every payload, and —
for the team aggregator — a player table that is empty or has the
`team_id` field on at least one row (otherwise its `groupby` raises
`KeyError`, see `create_team_match_stats_missing_column`), all three
builders succeed for arbitrary fixture lists and history entries. -/
theorem claim_C4_amended (parse : String → Option Int) (bs : Bootstrap)
    (season : String) (elems : List BElem) (teams : List TeamRec)
    (apd : List PlayerEntry) (fd : List Fixture) (ps : List PlayerRow)
    (fx : List FixtureRow)
    (hE : bs.elements = some elems) (hT : bs.teams = some teams)
    (hEid : ∀ p ∈ elems, p.id.isSome)
    (hTrec : ∀ t ∈ teams, t.id.isSome ∧ t.name.isSome)
    (hPE : ∀ pe ∈ apd, pe.player_id.isSome ∧ pe.data.isSome)
    (hcol : ps = [] ∨ ∃ r ∈ ps, r.team_id.isSome) :
    (∃ out, create_player_match_stats_raw bs apd season = .ok out) ∧
    (∃ out, create_fixtures_table parse fd bs season = .ok out) ∧
    (∃ out, create_team_match_stats ps fx bs = .ok out) := by
  refine ⟨?_, ?_, ?_⟩
  · obtain ⟨lk, hlk⟩ := playersLookupE_total elems hEid
    obtain ⟨records, hrec⟩ := emitPlayers_total lk season apd hPE
    unfold create_player_match_stats_raw
    rw [hE, show getKey (some elems) "elements" = Except.ok elems from rfl,
      ok_bind, hlk, ok_bind, hrec, ok_bind]
    by_cases hc : records.isEmpty
    · rw [if_pos hc]; exact ⟨records, rfl⟩
    · rw [if_neg hc]; exact ⟨sortLe playerKeyLe records, rfl⟩
  · by_cases hfd : fd.isEmpty
    · unfold create_fixtures_table
      rw [if_pos hfd]
      exact ⟨[], rfl⟩
    · obtain ⟨lk, hlk⟩ :=
        teamsLookupE_total teams (fun t ht => (hTrec t ht).1)
      obtain ⟨recs, hrecs⟩ := emitFixtures_total parse lk teams season
        (teamsLookupE_mem teams lk hlk) (fun t ht => (hTrec t ht).2) fd
      unfold create_fixtures_table
      rw [if_neg hfd, hT,
        show getKey (some teams) "teams" = Except.ok teams from rfl,
        ok_bind, hlk, ok_bind, hrecs, ok_bind]
      exact ⟨annotateFixtures recs, rfl⟩
  · by_cases hps : ps.isEmpty
    · unfold create_team_match_stats
      rw [if_pos hps]
      exact ⟨[], rfl⟩
    · rcases hcol with hnil | ⟨r, hr, hrs⟩
      · rw [hnil] at hps
        simp at hps
      · have hall : ¬ (ps.all (fun r => r.team_id.isNone) = true) := by
          intro hc
          have h2 := List.all_eq_true.mp hc r hr
          cases hx : r.team_id with
          | none => rw [hx] at hrs; cases hrs
          | some v => rw [hx] at h2; cases h2
        obtain ⟨nlk, hnlk⟩ := teamsNameLookupE_total teams hTrec
        unfold create_team_match_stats
        rw [if_neg hps, if_neg hall, hT,
          show getKey (some teams) "teams" = Except.ok teams from rfl,
          ok_bind, hnlk, ok_bind]
        exact ⟨_, rfl⟩

/-- C4, witness: the amended tolerance property at the demo inputs
(whose history entry has many absent fields and whose second fixture has
an absent difficulty). -/
theorem claim_C4_amended_witness :
    (∃ out, create_player_match_stats_raw bsDemo apdDemo "2024-25" =
      .ok out) ∧
    (∃ out, create_fixtures_table parseDemo fxMulti bsDemo "2024-25" =
      .ok out) ∧
    (∃ out, create_team_match_stats psC1 fxC1 bsDemo = .ok out) :=
  claim_C4_amended parseDemo bsDemo "2024-25" elemsDemo teamsDemo apdDemo
    fxMulti psC1 fxC1 rfl rfl (by decide) (by decide) (by decide)
    (by decide)

end FFM
